import Mathlib

/-!
# RockPaperClaw — verification of the match lifecycle engine

Shallow embedding of the core of the rockpaperclaw arena: the move
commitment codec, the strategy executor (`computeMove`), the escrow
ledger primitives (`escrow_wager`, `refund_wager`, `cancel_challenge`),
the SQL resolution function (`resolve_match`), the reveal guard
(`submit_reveal`), the stale-match reaper (`processMatch`), and the
accept-challenge window clamping.  Definitions are translated from the
TypeScript edge functions and the plpgsql schema functions; timestamps
are rationals, SQL `INTEGER` columns are `Int`, nullable columns are
`Option`, and a raised plpgsql exception is an `Except.error` (the
surrounding transaction rolls back, so the erroring run leaves the
state unchanged — made explicit by the `run*` wrappers).
-/

namespace RockPaperClaw

/-- The three canonical moves (`'rock' | 'paper' | 'scissors'`). -/
inductive Move where
  | rock
  | paper
  | scissors
deriving DecidableEq, Repr

/-- Wire encoding of a move: exactly the three lowercase tokens. -/
def Move.str : Move → String
  | .rock => "rock"
  | .paper => "paper"
  | .scissors => "scissors"

/-- Parse a TEXT move value; mirrors the SQL guard
`p_move IN ('rock','paper','scissors')` (and the TS `VALID_MOVES.includes`). -/
def parseMove (s : String) : Option Move :=
  if s = "rock" then some .rock
  else if s = "paper" then some .paper
  else if s = "scissors" then some .scissors
  else none

/-- `VALID_MOVES: Move[] = ['rock', 'paper', 'scissors']` from `_shared/auth.ts`. -/
def VALID_MOVES : List Move := [.rock, .paper, .scissors]

/-- The winner condition of `resolve_match`: `a` beats `b` under the standard
cycle (rock beats scissors, paper beats rock, scissors beats paper). -/
def beats : Move → Move → Bool
  | .rock, .scissors => true
  | .paper, .rock => true
  | .scissors, .paper => true
  | _, _ => false

/-- `counters` table of the `counter_last_loss` branch of `computeMove`. -/
def counterOf : Move → Move
  | .rock => .paper
  | .paper => .scissors
  | .scissors => .rock

/-- A validated strategy configuration (the TS `Strategy` union type).
Weights of `weighted` are exact rationals standing in for IEEE binary64
numbers. -/
inductive Strategy where
  | random
  | always (move : Move)
  | cycle (sequence : List Move)
  | weighted (rock paper scissors : ℚ)
  | counter_last_loss
deriving DecidableEq, Repr

/-- The mutable `strategy_state` JSON blob, reduced to the only field the
code reads: `index`.  `some i` models `{index: i}` with a numeric index,
`none` models a state whose `index` field is absent or not a number
(`typeof state.index === 'number'` fails, so the code falls back to 0). -/
def StratState : Type := Option Int
deriving instance DecidableEq, Repr for StratState

/-- JavaScript `%` on integers: truncated remainder (`(-1) % 3 = -1`). -/
def jsRem (a b : Int) : Int := Int.tmod a b

/-- JavaScript array indexing `l[i]` with an `Int` index: `undefined`
(here `none`) for a negative or out-of-range index. -/
def listGetJs (l : List Move) (i : Int) : Option Move :=
  if 0 ≤ i then l.get? i.toNat else none

/-- Result record of `computeMove` (`MoveResult` in `_shared/strategy.ts`).
The move is an `Option` because the JS lookup `sequence[index % len]` can
produce `undefined` when the (adversarially negative) index makes the JS
remainder negative. -/
structure MoveResult where
  move : Option Move
  newState : StratState
deriving DecidableEq, Repr

/-- `computeMove(strategy, state, agentId?)` from `_shared/strategy.ts`.

The two sources of nondeterminism are passed explicitly:
`rand` is the `Math.random()` draw consumed by the `random`, `weighted`
and no-prior-loss `counter_last_loss` branches, and `lastLostTo` is the
database answer of the `counter_last_loss` lookup (the opponent move of
the most recent completed non-drawn match this agent lost, `none` when
no such match exists). -/
def computeMove (strategy : Strategy) (state : StratState) (rand : ℚ)
    (lastLostTo : Option Move) : MoveResult :=
  match strategy with
  | .random =>
      { move := listGetJs VALID_MOVES ⌊rand * 3⌋, newState := state }
  | .always m =>
      { move := some m, newState := state }
  | .cycle seq =>
      let index : Int := state.getD 0
      { move := listGetJs seq (jsRem index seq.length),
        newState := some (jsRem (index + 1) seq.length) }
  | .weighted r p _ =>
      { move := some (if rand < r then .rock
                      else if rand < r + p then .paper
                      else .scissors),
        newState := state }
  | .counter_last_loss =>
      match lastLostTo with
      | some m => { move := some (counterOf m), newState := state }
      | none => { move := listGetJs VALID_MOVES ⌊rand * 3⌋, newState := state }

/-- `advanceState`: same computation as `computeMove`, discarding the move. -/
def advanceState (strategy : Strategy) (state : StratState) (rand : ℚ)
    (lastLostTo : Option Move) : StratState :=
  (computeMove strategy state rand lastLostTo).newState

/-! ## The commitment digest

`createCommit` (mcp store) and `submit_reveal` (schema, via pgcrypto) both
compute `sha256(move || salt)` as a lowercase hex string, using external
cryptographic libraries (`node:crypto` / the `pgcrypto` extension). -/

/-- `hexDigit n` is the lowercase hex digit character for `n < 16`
(`48` is the code point of `0`, `87 + 10` that of `a`). -/
def hexDigit (n : Nat) : Char :=
  if n < 10 then Char.ofNat (48 + n) else Char.ofNat (87 + n)

/-- Big-endian fixed-width hex rendering of `n` with `k` digits. -/
def hexN : Nat → Nat → List Char
  | 0, _ => []
  | k + 1, n => hexN k (n / 16) ++ [hexDigit (n % 16)]

/-- Six lowercase hex digits for one character (code points are below
`0x110000 < 16^6`). -/
def encChar (c : Char) : List Char := hexN 6 c.toNat

/-- Modelled from the spec: the SHA-256 digest primitive.  The digest itself
(`createHash('sha256')` in `node:crypto`, `extensions.digest(·, 'sha256')`
in pgcrypto) is an external library, not part of this repository; only its
callers are in the source.  The spec describes it as a deterministic
"one-way binding" producing a lowercase hex string, with commit–reveal
soundness (§8) as its contract, so it is modelled as a deterministic,
collision-free lowercase-hex digest: six hex digits per input character. -/
def sha256hex (s : String) : String := ⟨s.data.flatMap encChar⟩

/-- A pending commit as produced by `createCommit` in the mcp store: the
salt (sixteen random bytes rendered as hex, generated by the external
`randomBytes`; passed explicitly here) and `hash = sha256(move + salt)`. -/
structure Commit where
  hash : String
  salt : String
deriving DecidableEq, Repr

/-- `createCommit(move)` from the mcp store, with the random salt passed
explicitly. -/
def createCommit (move : String) (salt : String) : Commit :=
  { hash := sha256hex (move ++ salt), salt := salt }

/-! ## Database rows -/

/-- `match_status` enum. -/
inductive MatchStatus where
  | pending
  | waiting_reveals
  | complete
deriving DecidableEq, Repr

/-- `challenge_status` enum (`open` is a Lean keyword, hence `open_`). -/
inductive ChallengeStatus where
  | open_
  | matched
  | cancelled
deriving DecidableEq, Repr

/-- A row of the `matches` table (columns the engine reads or writes).
Timestamps are rationals; UUIDs are naturals. -/
structure MatchRec where
  id : Nat
  agent1_id : Nat
  agent2_id : Nat
  wager_amount : Int
  status : MatchStatus
  strategy_deadline : Option ℚ
  commit_deadline : ℚ
  agent1_move_hash : Option String
  agent2_move_hash : Option String
  reveal_deadline : Option ℚ
  agent1_move : Option String
  agent1_salt : Option String
  agent2_move : Option String
  agent2_salt : Option String
  agent1_used_fallback : Bool
  agent2_used_fallback : Bool
  agent1_strategy : Strategy
  agent2_strategy : Strategy
  winner_id : Option Nat
  completed_at : Option ℚ
deriving DecidableEq, Repr

/-- A row of the `agents` table (columns the engine reads or writes). -/
structure AgentRec where
  id : Nat
  balance : Int
  wins : Int
  losses : Int
  draws : Int
  strategy : Strategy
  strategy_state : StratState
deriving DecidableEq, Repr

/-- A row of the `transactions` table. -/
structure Txn where
  match_id : Option Nat
  from_agent_id : Option Nat
  to_agent_id : Nat
  amount : Int
  note : String
deriving DecidableEq, Repr

/-- A row of the `challenges` table. -/
structure ChallengeRec where
  id : Nat
  challenger_id : Nat
  wager_amount : Int
  status : ChallengeStatus
deriving DecidableEq, Repr

/-- The slice of the database a match resolution touches: the match row,
the two participant agent rows (`a1` is the row whose id the theorems
equate with `m.agent1_id`, `a2` with `m.agent2_id`; the schema constraint
`different_agents` keeps the ids distinct), and the transaction log. -/
structure DbState where
  m : MatchRec
  a1 : AgentRec
  a2 : AgentRec
  txs : List Txn
deriving DecidableEq, Repr

/-- `UPDATE agents SET … WHERE <cond on id>` over the two in-scope rows. -/
def updAgents (st : DbState) (cond : Nat → Bool) (f : AgentRec → AgentRec) :
    DbState :=
  { st with
    a1 := if cond st.a1.id then f st.a1 else st.a1,
    a2 := if cond st.a2.id then f st.a2 else st.a2 }

/-! ## Escrow ledger primitives -/

/-- The slice of the database the standalone ledger primitives touch:
one agent row and the transaction log. -/
structure LedgerState where
  ag : AgentRec
  txs : List Txn
deriving DecidableEq, Repr

/-- `escrow_wager(p_agent_id, p_amount)` from the schema: under the row
lock, return `FALSE` when `balance < p_amount`, otherwise debit the
balance and return `TRUE`.  (It writes no `transactions` row.) -/
def escrow_wager (st : LedgerState) (p_amount : Int) : Bool × LedgerState :=
  if st.ag.balance < p_amount then (false, st)
  else (true, { st with ag := { st.ag with balance := st.ag.balance - p_amount } })

/-- `refund_wager(p_agent_id, p_amount)` from the schema: an additive
credit.  (It writes no `transactions` row.) -/
def refund_wager (st : LedgerState) (p_amount : Int) : LedgerState :=
  { st with ag := { st.ag with balance := st.ag.balance + p_amount } }

/-- The slice of the database `cancel_challenge` touches: the challenge
row, the calling agent's row, and the transaction log. -/
structure CancelState where
  ch : ChallengeRec
  ag : AgentRec
  txs : List Txn
deriving DecidableEq, Repr

/-- Return record of `cancel_challenge`. -/
structure CancelResult where
  success : Bool
  wager_amount : Int
  message : String
deriving DecidableEq, Repr

/-- `cancel_challenge(p_challenge_id, p_agent_id)` from migration 006.
The not-found arm (no challenge row) is outside this slice; the state
carries the locked challenge row.  On success: status `cancelled`, the
escrowed wager credited back to the caller, and one refund transaction
appended in the same transaction. -/
def cancel_challenge (st : CancelState) (p_agent_id : Nat) :
    CancelResult × CancelState :=
  if st.ch.challenger_id ≠ p_agent_id then
    ({ success := false, wager_amount := 0, message := "Not your challenge" }, st)
  else if st.ch.status ≠ .open_ then
    ({ success := false, wager_amount := 0,
       message := "Cannot cancel a challenge with this status" }, st)
  else
    let st1 : CancelState := { st with ch := { st.ch with status := .cancelled } }
    let st2 : CancelState :=
      { st1 with ag := if st1.ag.id = p_agent_id
          then { st1.ag with balance := st1.ag.balance + st.ch.wager_amount }
          else st1.ag }
    let st3 : CancelState :=
      { st2 with txs := st2.txs ++
          [{ match_id := none, from_agent_id := none, to_agent_id := p_agent_id,
             amount := st.ch.wager_amount,
             note := "challenge cancelled — wager returned" }] }
    ({ success := true, wager_amount := st.ch.wager_amount,
       message := "Challenge cancelled." }, st3)

/-- The slice of the database `create_match` touches: the challenge row
being accepted, the locked challenger and accepter agent rows, and the
transaction log. -/
structure CreateMatchState where
  ch : ChallengeRec
  challenger : AgentRec
  accepter : AgentRec
  txs : List Txn
deriving DecidableEq, Repr

/-- `create_match(p_challenge_id, p_accepter_id, p_strategy_seconds,
p_commit_seconds)` from migration 002: validate the locked challenge is
`open` and the accepter is not the challenger, check and debit the
accepter's balance (`UPDATE agents SET balance = balance -
wager_amount` — it writes no `transactions` row), insert the match in
`pending` with the strategy snapshots and
`strategy_deadline = now + p_strategy_seconds`,
`commit_deadline = strategy_deadline + p_commit_seconds`, and mark the
challenge `matched`.  The freshly generated match row id
(`gen_random_uuid()`) is passed in as `p_match_id`. -/
def create_match (now : ℚ) (st : CreateMatchState) (p_accepter_id : Nat)
    (p_match_id : Nat) (p_strategy_seconds p_commit_seconds : ℚ) :
    Except String (CreateMatchState × MatchRec) :=
  if st.ch.status ≠ .open_ then
    Except.error "Challenge is not open or does not exist"
  else if st.ch.challenger_id = p_accepter_id then
    Except.error "An agent cannot accept their own challenge"
  else if st.accepter.balance < st.ch.wager_amount then
    Except.error "Accepter has insufficient balance"
  else
    let st1 : CreateMatchState :=
      { st with accepter := if st.accepter.id = p_accepter_id
          then { st.accepter with
                 balance := st.accepter.balance - st.ch.wager_amount }
          else st.accepter }
    let strategy_dl := now + p_strategy_seconds
    let m : MatchRec :=
      { id := p_match_id, agent1_id := st.ch.challenger_id,
        agent2_id := p_accepter_id, wager_amount := st.ch.wager_amount,
        status := .pending, strategy_deadline := some strategy_dl,
        commit_deadline := strategy_dl + p_commit_seconds,
        agent1_move_hash := none, agent2_move_hash := none,
        reveal_deadline := none, agent1_move := none, agent1_salt := none,
        agent2_move := none, agent2_salt := none,
        agent1_used_fallback := false, agent2_used_fallback := false,
        agent1_strategy := st.challenger.strategy,
        agent2_strategy := st.accepter.strategy,
        winner_id := none, completed_at := none }
    let st2 : CreateMatchState := { st1 with ch := { st1.ch with status := .matched } }
    Except.ok (st2, m)

/-! ## resolve_match -/

/-- The parameters of `resolve_match`. -/
structure ResolveArgs where
  agent1_move : String
  agent2_move : String
  agent1_fallback : Bool
  agent2_fallback : Bool
  agent1_new_state : StratState
  agent2_new_state : StratState
deriving DecidableEq, Repr

/-- `resolve_match` from the schema, step for step: re-validate
`status != 'complete'` under the lock, validate both move texts, write
final moves and fallback flags, determine the winner by the standard
cycle, transfer chips and append the matching transactions, bump the
win/loss/draw counters, stamp the match `complete` with `winner_id`
(NULL on draw) and `completed_at`, and store both agents' new strategy
states.  A raised exception is `Except.error`; plpgsql then rolls the
whole transaction back. -/
def resolve_match (now : ℚ) (st : DbState) (p : ResolveArgs) :
    Except String DbState :=
  if st.m.status = .complete then
    Except.error "Match is already complete or does not exist"
  else if (parseMove p.agent1_move).isNone then
    Except.error "Invalid agent1 move"
  else if (parseMove p.agent2_move).isNone then
    Except.error "Invalid agent2 move"
  else
    -- `v_match` is the row as read before any mutation.
    let v := st.m
    let st1 : DbState := { st with m := { st.m with
      agent1_move := some p.agent1_move,
      agent2_move := some p.agent2_move,
      agent1_used_fallback := p.agent1_fallback,
      agent2_used_fallback := p.agent2_fallback } }
    if p.agent1_move = p.agent2_move then
      -- draw: return each wager, two audit rows, both draws counters
      let st2 := updAgents st1 (fun i => i = v.agent1_id || i = v.agent2_id)
        (fun ag => { ag with balance := ag.balance + v.wager_amount })
      let st3 : DbState := { st2 with txs := st2.txs ++
        [{ match_id := some v.id, from_agent_id := none, to_agent_id := v.agent1_id,
           amount := v.wager_amount, note := "draw — wager returned" },
         { match_id := some v.id, from_agent_id := none, to_agent_id := v.agent2_id,
           amount := v.wager_amount, note := "draw — wager returned" }]}
      let st4 := updAgents st3 (fun i => i = v.agent1_id || i = v.agent2_id)
        (fun ag => { ag with draws := ag.draws + 1 })
      let st5 : DbState := { st4 with m := { st4.m with
        status := .complete, winner_id := none, completed_at := some now } }
      let st6 := updAgents st5 (fun i => i = v.agent1_id)
        (fun ag => { ag with strategy_state := p.agent1_new_state })
      let st7 := updAgents st6 (fun i => i = v.agent2_id)
        (fun ag => { ag with strategy_state := p.agent2_new_state })
      Except.ok st7
    else
      let ids :=
        if (p.agent1_move = "rock" ∧ p.agent2_move = "scissors")
            ∨ (p.agent1_move = "paper" ∧ p.agent2_move = "rock")
            ∨ (p.agent1_move = "scissors" ∧ p.agent2_move = "paper")
        then (v.agent1_id, v.agent2_id)
        else (v.agent2_id, v.agent1_id)
      let winner := ids.1
      let loser := ids.2
      -- winner receives both escrowed wagers, one audit row, the counters
      let st2 := updAgents st1 (fun i => i = winner)
        (fun ag => { ag with balance := ag.balance + v.wager_amount * 2 })
      let st3 : DbState := { st2 with txs := st2.txs ++
        [{ match_id := some v.id, from_agent_id := some loser, to_agent_id := winner,
           amount := v.wager_amount * 2, note := "match winnings" }]}
      let st4 := updAgents st3 (fun i => i = winner)
        (fun ag => { ag with wins := ag.wins + 1 })
      let st5 := updAgents st4 (fun i => i = loser)
        (fun ag => { ag with losses := ag.losses + 1 })
      let st6 : DbState := { st5 with m := { st5.m with
        status := .complete, winner_id := some winner, completed_at := some now } }
      let st7 := updAgents st6 (fun i => i = v.agent1_id)
        (fun ag => { ag with strategy_state := p.agent1_new_state })
      let st8 := updAgents st7 (fun i => i = v.agent2_id)
        (fun ag => { ag with strategy_state := p.agent2_new_state })
      Except.ok st8

/-- Observable effect of one `resolve_match` call: a raised exception
rolls the transaction back, leaving the database unchanged. -/
def runResolve (now : ℚ) (st : DbState) (p : ResolveArgs) : DbState :=
  match resolve_match now st p with
  | .ok st' => st'
  | .error _ => st

/-! ## submit_reveal -/

/-- The parameters of `submit_reveal`. -/
structure RevealArgs where
  agent_id : Nat
  move : String
  salt : String
deriving DecidableEq, Repr

/-- SQL three-valued `!=` against a nullable column: a comparison with
NULL is not true, so it raises nothing. -/
def sqlNeq (x : String) (y : Option String) : Bool :=
  match y with
  | some s => x ≠ s
  | none => false

/-- SQL `now() > <nullable timestamp>`: not true when the column is NULL. -/
def sqlAfter (now : ℚ) (d : Option ℚ) : Bool :=
  match d with
  | some t => now > t
  | none => false

/-- `submit_reveal` from the schema: lock the row requiring
`status = 'waiting_reveals'`, check the reveal deadline, the caller
being a participant, the move text, then — for the caller's side — that
this side has not already revealed and that
`encode(digest(move || salt, 'sha256'), 'hex')` equals the stored commit
hash; only then store the plaintext move and salt.  Resolution is not
triggered here. -/
def submit_reveal (now : ℚ) (st : DbState) (p : RevealArgs) :
    Except String DbState :=
  if st.m.status ≠ .waiting_reveals then
    Except.error "Match is not in waiting_reveals state or does not exist"
  else if sqlAfter now st.m.reveal_deadline then
    Except.error "Reveal deadline has passed"
  else if p.agent_id ≠ st.m.agent1_id ∧ p.agent_id ≠ st.m.agent2_id then
    Except.error "Agent is not a participant in this match"
  else if (parseMove p.move).isNone then
    Except.error "Invalid move"
  else
    let expected := sha256hex (p.move ++ p.salt)
    if p.agent_id = st.m.agent1_id then
      if st.m.agent1_move.isSome then
        Except.error "Agent1 has already revealed"
      else if sqlNeq expected st.m.agent1_move_hash then
        Except.error "Hash mismatch for agent1 — submitted move/salt does not match commit"
      else
        Except.ok { st with m := { st.m with
          agent1_move := some p.move, agent1_salt := some p.salt } }
    else
      if st.m.agent2_move.isSome then
        Except.error "Agent2 has already revealed"
      else if sqlNeq expected st.m.agent2_move_hash then
        Except.error "Hash mismatch for agent2 — submitted move/salt does not match commit"
      else
        Except.ok { st with m := { st.m with
          agent2_move := some p.move, agent2_salt := some p.salt } }

/-- Observable effect of one `submit_reveal` call: a raised exception
rolls the transaction back, leaving the database unchanged. -/
def runReveal (now : ℚ) (st : DbState) (p : RevealArgs) : DbState :=
  match submit_reveal now st p with
  | .ok st' => st'
  | .error _ => st

/-! ## The stale match reaper -/

/-- The nondeterministic inputs one `processMatch` call consumes: the two
`Math.random()` draws and the two `counter_last_loss` database answers. -/
structure ReaperOracle where
  rand1 : ℚ
  rand2 : ℚ
  lastLost1 : Option Move
  lastLost2 : Option Move
deriving DecidableEq, Repr

/-- What `processMatch` hands to `resolve_match`: moves, fallback flags
and new strategy states for both sides. -/
structure ReapDecision where
  agent1Move : Option Move
  agent2Move : Option Move
  agent1Fallback : Bool
  agent2Fallback : Bool
  newState1 : StratState
  newState2 : StratState
deriving DecidableEq, Repr

/-- `processMatch` from `process-stale-matches/index.ts` (the decision
part, before the `resolve_match` RPC).  `a1`/`a2` are the *current*
`agents` rows it loads (`select('id, strategy, strategy_state')`) — not
the match-time strategy snapshots stored on the match row.

* `status = 'pending'` (commit timeout): both moves come from the
  Strategy Executor; `agentNFallback` is `!agentNCommitted`, i.e. a side
  that committed a hash is not flagged even though its hash is discarded.
* otherwise (`waiting_reveals`, reveal timeout): a side keeps its
  already-verified revealed move (state advanced via `advanceState`),
  a silent side gets a strategy move and the fallback flag.

Revealed moves are TEXT in the database; the `valid_agentN_move` check
constraint makes `parseMove` succeed on them. -/
def processMatch (m : MatchRec) (a1 a2 : AgentRec) (o : ReaperOracle) :
    ReapDecision :=
  if m.status = .pending then
    let r1 := computeMove a1.strategy a1.strategy_state o.rand1 o.lastLost1
    let r2 := computeMove a2.strategy a2.strategy_state o.rand2 o.lastLost2
    { agent1Move := r1.move, agent2Move := r2.move,
      agent1Fallback := m.agent1_move_hash.isNone,
      agent2Fallback := m.agent2_move_hash.isNone,
      newState1 := r1.newState, newState2 := r2.newState }
  else
    let d1 :=
      match m.agent1_move with
      | some mv =>
          (parseMove mv, advanceState a1.strategy a1.strategy_state o.rand1 o.lastLost1, false)
      | none =>
          let r1 := computeMove a1.strategy a1.strategy_state o.rand1 o.lastLost1
          (r1.move, r1.newState, true)
    let d2 :=
      match m.agent2_move with
      | some mv =>
          (parseMove mv, advanceState a2.strategy a2.strategy_state o.rand2 o.lastLost2, false)
      | none =>
          let r2 := computeMove a2.strategy a2.strategy_state o.rand2 o.lastLost2
          (r2.move, r2.newState, true)
    { agent1Move := d1.1, agent2Move := d2.1,
      agent1Fallback := d1.2.2, agent2Fallback := d2.2.2,
      newState1 := d1.2.1, newState2 := d2.2.1 }

/-- One reaper pass over one stale match: compute the decision, then call
`resolve_match` with it (the TS passes `agentNMove!` through the RPC). -/
def reapResolve (now : ℚ) (st : DbState) (o : ReaperOracle) :
    Except String DbState :=
  let d := processMatch st.m st.a1 st.a2 o
  match d.agent1Move, d.agent2Move with
  | some mv1, some mv2 =>
      resolve_match now st
        { agent1_move := mv1.str, agent2_move := mv2.str,
          agent1_fallback := d.agent1Fallback, agent2_fallback := d.agent2Fallback,
          agent1_new_state := d.newState1, agent2_new_state := d.newState2 }
  | _, _ => Except.error "move undefined"

/-! ## Strategy validation and match creation windows -/

/-- Wire shape of a submitted strategy before validation.  Fields hold
`none` where the JSON value fails the code's type test (`typeof … !==
'number'`, a sequence entry not among the three tokens, …);
`unknownType` covers any other `type` tag. -/
inductive StrategyWire where
  | random
  | always (move : Option Move)
  | cycle (sequence : List (Option Move))
  | weighted (rock paper scissors : Option ℚ)
  | counter_last_loss
  | unknownType
deriving DecidableEq, Repr

/-- `validateStrategy` from `_shared/auth.ts`.  The weighted arm requires
three numbers with `Math.abs(sum - 1.0) < 0.001`; weights are exact
rationals standing in for IEEE binary64 values (the branch is decided
identically except within one binary64 ulp of the threshold). -/
def validateStrategy : StrategyWire → Bool
  | .random => true
  | .always m => m.isSome
  | .cycle seq =>
      decide (0 < seq.length) && decide (seq.length ≤ 20) && seq.all Option.isSome
  | .weighted r p s =>
      match r, p, s with
      | some r, some p, some s => |r + p + s - 1| < 1 / 1000
      | _, _, _ => false
  | .counter_last_loss => true
  | .unknownType => false

/-- The `accept-challenge` handler's window clamping: a non-NaN numeric
request is clamped by `Math.max(10, Math.min(120, x))`, anything else
defaults to 60. -/
def clampWindow (req : Option ℚ) : ℚ :=
  match req with
  | some x => max 10 (min 120 x)
  | none => 60

/-- The deadline computation of `create_match` (migration 002):
`v_strategy_dl := now() + p_strategy_seconds` and
`commit_deadline := v_strategy_dl + p_commit_seconds`. -/
def create_match_deadlines (now strategySeconds commitSeconds : ℚ) : ℚ × ℚ :=
  (now + strategySeconds, now + strategySeconds + commitSeconds)

/-- Match creation as driven by the `accept-challenge` handler: clamp the
requested windows, then let `create_match` stamp the deadlines. -/
def acceptChallengeDeadlines (now : ℚ) (reqStrategy reqCommit : Option ℚ) :
    ℚ × ℚ :=
  create_match_deadlines now (clampWindow reqStrategy) (clampWindow reqCommit)

/-! ## Helper lemmas -/

theorem parseMove_str (m : Move) : parseMove m.str = some m := by
  cases m <;> rfl

theorem jsRem_natCast (m n : ℕ) : jsRem (m : ℤ) (n : ℤ) = ((m % n : ℕ) : ℤ) := rfl

theorem listGetJs_natCast (l : List Move) (k : ℕ) :
    listGetJs l (k : ℤ) = l.get? k := by
  simp [listGetJs]

theorem updAgents_m (st : DbState) (c : Nat → Bool) (f : AgentRec → AgentRec) :
    (updAgents st c f).m = st.m := rfl

theorem updAgents_txs (st : DbState) (c : Nat → Bool) (f : AgentRec → AgentRec) :
    (updAgents st c f).txs = st.txs := rfl

theorem runResolve_of_error (now : ℚ) (st : DbState) (p : ResolveArgs)
    (e : String) (h : resolve_match now st p = .error e) :
    runResolve now st p = st := by
  simp [runResolve, h]

theorem runReveal_of_error (now : ℚ) (st : DbState) (p : RevealArgs)
    (e : String) (h : submit_reveal now st p = .error e) :
    runReveal now st p = st := by
  simp [runReveal, h]

/-- Every successful `resolve_match` stamps the match `complete`. -/
theorem resolve_match_ok_status (now : ℚ) (st : DbState) (p : ResolveArgs)
    (st' : DbState) (hok : resolve_match now st p = .ok st') :
    st'.m.status = .complete := by
  unfold resolve_match at hok
  split_ifs at hok <;>
    simp only [Except.ok.injEq] at hok <;>
    subst hok <;>
    simp [updAgents_m]

/-! ## C9 — window clamping and deadline computation -/

/-- C9: for every caller-requested `strategy_seconds`/`commit_seconds`
value, match creation clamps each window into [10, 120] (a missing or
non-numeric request defaults to 60), and sets
`strategyDeadline = now + strategySeconds`,
`commitDeadline = strategyDeadline + commitSeconds`. -/
theorem accept_challenge_window_bounds (now x : ℚ) (r c : Option ℚ) :
    clampWindow (some x) = max 10 (min 120 x) ∧
    10 ≤ clampWindow (some x) ∧
    clampWindow (some x) ≤ 120 ∧
    clampWindow none = 60 ∧
    acceptChallengeDeadlines now r c =
      (now + clampWindow r, (now + clampWindow r) + clampWindow c) := by
  refine ⟨rfl, le_max_left _ _, ?_, rfl, rfl⟩
  exact max_le (by norm_num) (min_le_left _ _)

/-! ## C8 — weighted strategy validation tolerance -/

/-- C8 counterexample: the configuration `{rock: 1, paper: 0.003,
scissors: 0}` sums to 1.0 within ±0.005 — so the claim says it is
accepted — yet `validateStrategy` rejects it (the code's tolerance is
the strict `Math.abs(sum - 1.0) < 0.001`). -/
theorem validateStrategy_weighted_counterexample :
    |(1 : ℚ) + 3 / 1000 + 0 - 1| ≤ 5 / 1000 ∧
    validateStrategy (.weighted (some 1) (some (3 / 1000)) (some 0)) = false := by
  have habs : |(1 : ℚ) + 3 / 1000 + 0 - 1| = 3 / 1000 := by
    rw [show (1 : ℚ) + 3 / 1000 + 0 - 1 = 3 / 1000 by norm_num]
    exact abs_of_nonneg (by norm_num)
  constructor
  · rw [habs]; norm_num
  · simp only [validateStrategy, habs, decide_eq_false_iff_not]
    norm_num

/-- C8 amended: a weighted configuration is accepted iff its three
weights are numbers and their sum is within the *strict* `< 0.001` of
1.0 (not ±0.005). -/
theorem validateStrategy_weighted_iff (r p s : ℚ) (x y : Option ℚ) :
    (validateStrategy (.weighted (some r) (some p) (some s)) = true ↔
      |r + p + s - 1| < 1 / 1000) ∧
    validateStrategy (.weighted none x y) = false ∧
    validateStrategy (.weighted (some r) none y) = false ∧
    validateStrategy (.weighted (some r) (some p) none) = false := by
  refine ⟨?_, rfl, rfl, rfl⟩
  simp [validateStrategy]

/-! ## C7 — cycle strategy determinism -/

/-- C7 counterexample: at the (adversarial) integer state index `-1`
with `cycle [rock, paper, scissors]`, the claim's formula
`sequence[i mod len]` picks `scissors` (`(-1) mod 3 = 2`), but the code
computes the JavaScript remainder `(-1) % 3 = -1` and
`sequence[-1]` is `undefined` — no move at all. -/
theorem cycle_negative_index_counterexample :
    [Move.rock, Move.paper, Move.scissors].get? (((-1 : Int) % 3).toNat) =
      some Move.scissors ∧
    (computeMove (.cycle [Move.rock, Move.paper, Move.scissors])
        (some (-1)) 0 none).move = none ∧
    (computeMove (.cycle [Move.rock, Move.paper, Move.scissors])
        (some (-1)) 0 none).move ≠
      [Move.rock, Move.paper, Move.scissors].get? (((-1 : Int) % 3).toNat) := by
  refine ⟨rfl, ?_, ?_⟩ <;> decide

/-- C7 amended: for every cycle strategy with a non-empty sequence of at
most 20 moves and every *non-negative* integer state index `i`,
`computeMove` returns `sequence[i mod len]` and the new state index
`(i+1) mod len`; an absent index defaults to 0.  (The system itself only
ever stores non-negative indices.  For an adversarially negative index
the formula can fail, because the JS remainder is then zero or negative:
at `i = -1` the lookup `sequence[-1]` is `undefined` — the
counterexample — while at `i = -3` with three moves `-3 % 3` is `-0` and
`sequence[-0]` is `sequence[0]`, a real move.) -/
theorem cycle_computeMove_correct (seq : List Move) (i : Nat) (rand : ℚ)
    (ll : Option Move) (hne : seq ≠ []) (_hlen : seq.length ≤ 20) :
    (computeMove (.cycle seq) (some (i : Int)) rand ll).move =
      seq.get? (i % seq.length) ∧
    (seq.get? (i % seq.length)).isSome = true ∧
    (computeMove (.cycle seq) (some (i : Int)) rand ll).newState =
      some (((i + 1) % seq.length : Nat) : Int) ∧
    computeMove (.cycle seq) none rand ll =
      computeMove (.cycle seq) (some 0) rand ll := by
  have hpos : 0 < seq.length := List.length_pos.mpr hne
  refine ⟨?_, by rw [List.get?_eq_get (Nat.mod_lt i hpos)]; rfl, ?_, rfl⟩
  · simp only [computeMove, Option.getD_some]
    rw [jsRem_natCast, listGetJs_natCast]
  · simp only [computeMove, Option.getD_some]
    rw [show ((i : ℤ) + 1) = ((i + 1 : ℕ) : ℤ) by push_cast; ring, jsRem_natCast]

/-- C7 witness: the amended theorem applied at
`cycle [rock, paper, scissors]`, index 1 — and the claimed progression
rock, paper, scissors, rock from index 0 across successive state
advances. -/
theorem cycle_computeMove_correct_witness :
    ((computeMove (.cycle [Move.rock, Move.paper, Move.scissors])
        (some ((1 : ℕ) : Int)) 0 none).move =
      [Move.rock, Move.paper, Move.scissors].get?
        (1 % [Move.rock, Move.paper, Move.scissors].length) ∧
    ([Move.rock, Move.paper, Move.scissors].get?
        (1 % [Move.rock, Move.paper, Move.scissors].length)).isSome = true ∧
    (computeMove (.cycle [Move.rock, Move.paper, Move.scissors])
        (some ((1 : ℕ) : Int)) 0 none).newState =
      some (((1 + 1) % [Move.rock, Move.paper, Move.scissors].length : Nat) : Int) ∧
    computeMove (.cycle [Move.rock, Move.paper, Move.scissors]) none 0 none =
      computeMove (.cycle [Move.rock, Move.paper, Move.scissors]) (some 0) 0 none) ∧
    (computeMove (.cycle [Move.rock, Move.paper, Move.scissors]) (some 0) 0 none =
      { move := some Move.rock, newState := some 1 } ∧
    computeMove (.cycle [Move.rock, Move.paper, Move.scissors]) (some 1) 0 none =
      { move := some Move.paper, newState := some 2 } ∧
    computeMove (.cycle [Move.rock, Move.paper, Move.scissors]) (some 2) 0 none =
      { move := some Move.scissors, newState := some 0 } ∧
    computeMove (.cycle [Move.rock, Move.paper, Move.scissors]) (some 0) 0 none =
      { move := some Move.rock, newState := some 1 }) :=
  ⟨cycle_computeMove_correct [Move.rock, Move.paper, Move.scissors] 1 0 none
      (by decide) (by decide),
    by decide, by decide, by decide, by decide⟩

/-! ## C6 — commit–reveal soundness -/

theorem hexN_length (k n : Nat) : (hexN k n).length = k := by
  induction k generalizing n with
  | zero => rfl
  | succ k ih => simp [hexN, ih]

theorem encChar_length (c : Char) : (encChar c).length = 6 := hexN_length 6 _

theorem flatMap_encChar_length (l : List Char) :
    (l.flatMap encChar).length = 6 * l.length := by
  induction l with
  | nil => rfl
  | cons a l ih => simp [List.flatMap_cons, encChar_length, ih]; ring

/-- The modelled digest separates inputs of different lengths. -/
theorem sha256hex_ne_of_length_ne (s t : String)
    (h : s.data.length ≠ t.data.length) : sha256hex s ≠ sha256hex t := by
  intro he
  apply h
  have hd : s.data.flatMap encChar = t.data.flatMap encChar :=
    congrArg String.data he
  have := congrArg List.length hd
  rw [flatMap_encChar_length, flatMap_encChar_length] at this
  omega

/-- Distinct moves concatenated with the same salt have distinct digests
(the three move tokens have pairwise different lengths: 4, 5 and 8). -/
theorem sha256hex_move_salt_ne (mv mv' : Move) (salt : String) (h : mv ≠ mv') :
    sha256hex (mv.str ++ salt) ≠ sha256hex (mv'.str ++ salt) := by
  apply sha256hex_ne_of_length_ne
  have hlen : ∀ a b : String, (a ++ b).data.length = a.data.length + b.data.length := by
    intro a b
    rw [String.data_append, List.length_append]
  rw [hlen, hlen]
  cases mv <;> cases mv' <;> simp_all [Move.str]

/-- C6: a reveal of `(move, salt)` against the hash produced by
`createCommit` (SHA-256 of the UTF-8 concatenation `move || salt` as a
lowercase hex string) is accepted by `submit_reveal`, and a reveal of any
other move with the same salt against that hash is rejected — stated for
a participant (agent1's side) whose match is in `waiting_reveals`, within
the deadline and not yet revealed, so that only the hash check is at
stake. -/
theorem commit_reveal_soundness (now : ℚ) (st : DbState) (mv : Move)
    (salt : String)
    (hstat : st.m.status = .waiting_reveals)
    (hdl : sqlAfter now st.m.reveal_deadline = false)
    (hnorev : st.m.agent1_move = none)
    (hhash : st.m.agent1_move_hash = some (createCommit mv.str salt).hash) :
    (∃ st', submit_reveal now st
        { agent_id := st.m.agent1_id, move := mv.str, salt := salt } = .ok st') ∧
    (∀ mv' : Move, mv' ≠ mv →
      ∃ e, submit_reveal now st
        { agent_id := st.m.agent1_id, move := mv'.str, salt := salt } = .error e) := by
  constructor
  · refine ⟨{ st with m := { st.m with
      agent1_move := some mv.str, agent1_salt := some salt } }, ?_⟩
    simp [submit_reveal, hstat, hdl, hnorev, hhash, parseMove_str, createCommit, sqlNeq]
  · intro mv' hne'
    have hmm : sqlNeq (sha256hex (mv'.str ++ salt)) st.m.agent1_move_hash = true := by
      rw [hhash]
      simp only [sqlNeq, createCommit, decide_eq_true_eq]
      exact sha256hex_move_salt_ne mv' mv salt hne'
    refine ⟨"Hash mismatch for agent1 — submitted move/salt does not match commit", ?_⟩
    simp [submit_reveal, hstat, hdl, hnorev, parseMove_str, hmm]

/-- Salt used in the commit–reveal witness: sixteen random bytes as hex. -/
def c6Salt : String := "0123456789abcdef0123456789abcdef"

/-- Match row of the commit–reveal witness: `waiting_reveals`, both
commit hashes stored, nothing revealed yet. -/
def c6Match : MatchRec :=
  { id := 3, agent1_id := 1, agent2_id := 2, wager_amount := 50,
    status := .waiting_reveals, strategy_deadline := none, commit_deadline := 60,
    agent1_move_hash := some (createCommit Move.rock.str c6Salt).hash,
    agent2_move_hash := some (createCommit Move.scissors.str c6Salt).hash,
    reveal_deadline := some 200, agent1_move := none, agent1_salt := none,
    agent2_move := none, agent2_salt := none, agent1_used_fallback := false,
    agent2_used_fallback := false, agent1_strategy := .random,
    agent2_strategy := .random, winner_id := none, completed_at := none }

/-- Database slice of the commit–reveal witness. -/
def c6St : DbState :=
  { m := c6Match,
    a1 := { id := 1, balance := 950, wins := 0, losses := 0, draws := 0,
            strategy := .random, strategy_state := none },
    a2 := { id := 2, balance := 950, wins := 0, losses := 0, draws := 0,
            strategy := .random, strategy_state := none },
    txs := [] }

/-- C6 witness: `rock` committed with a concrete 16-byte salt verifies;
any other move with the same salt is rejected. -/
theorem commit_reveal_soundness_witness :
    (∃ st', submit_reveal 100 c6St
        { agent_id := c6St.m.agent1_id, move := Move.rock.str, salt := c6Salt }
        = .ok st') ∧
    (∀ mv' : Move, mv' ≠ Move.rock →
      ∃ e, submit_reveal 100 c6St
        { agent_id := c6St.m.agent1_id, move := mv'.str, salt := c6Salt }
        = .error e) :=
  commit_reveal_soundness 100 c6St Move.rock c6Salt rfl (by decide) rfl rfl

/-! ## C4 — pending-timeout fallback -/

/-- C4 amended: for a pending match past its commit deadline, the reaper
computes *both* final moves with the Strategy Executor from the agents'
**current** strategy rows (the `agents` table it loads — not the
match-time snapshot stored on the match row), no matter which commit
hashes exist; a lone commit hash only influences the audit flags, never
a move. -/
theorem processMatch_pending_fallback (m : MatchRec) (a1 a2 : AgentRec)
    (o : ReaperOracle) (h : m.status = .pending) :
    processMatch m a1 a2 o =
      { agent1Move := (computeMove a1.strategy a1.strategy_state o.rand1 o.lastLost1).move,
        agent2Move := (computeMove a2.strategy a2.strategy_state o.rand2 o.lastLost2).move,
        agent1Fallback := m.agent1_move_hash.isNone,
        agent2Fallback := m.agent2_move_hash.isNone,
        newState1 := (computeMove a1.strategy a1.strategy_state o.rand1 o.lastLost1).newState,
        newState2 := (computeMove a2.strategy a2.strategy_state o.rand2 o.lastLost2).newState } ∧
    ∀ h1 h2 : Option String,
      (processMatch { m with agent1_move_hash := h1, agent2_move_hash := h2 }
          a1 a2 o).agent1Move = (processMatch m a1 a2 o).agent1Move ∧
      (processMatch { m with agent1_move_hash := h1, agent2_move_hash := h2 }
          a1 a2 o).agent2Move = (processMatch m a1 a2 o).agent2Move := by
  constructor
  · simp [processMatch, h]
  · intro h1 h2
    constructor <;> simp [processMatch, h]

/-- Stale pending match of the C4 records: its snapshot says agent1 was
on `always rock` when the match was created, and agent1 meanwhile
switched their live strategy to `always paper`.  Agent1 committed a
hash; agent2 did not. -/
def c4Match : MatchRec :=
  { id := 4, agent1_id := 1, agent2_id := 2, wager_amount := 50,
    status := .pending, strategy_deadline := some 0, commit_deadline := 60,
    agent1_move_hash := some "deadbeef", agent2_move_hash := none,
    reveal_deadline := none, agent1_move := none, agent1_salt := none,
    agent2_move := none, agent2_salt := none, agent1_used_fallback := false,
    agent2_used_fallback := false, agent1_strategy := .always .rock,
    agent2_strategy := .always .scissors, winner_id := none,
    completed_at := none }

/-- Agent1's current row for the C4 records: live strategy edited to
`always paper` after the match was created. -/
def c4Agent1 : AgentRec :=
  { id := 1, balance := 950, wins := 0, losses := 0, draws := 0,
    strategy := .always .paper, strategy_state := none }

/-- Agent2's current row for the C4 records. -/
def c4Agent2 : AgentRec :=
  { id := 2, balance := 950, wins := 0, losses := 0, draws := 0,
    strategy := .always .scissors, strategy_state := none }

/-- Oracle for the C4 records (no randomness is consumed by `always`). -/
def c4Oracle : ReaperOracle :=
  { rand1 := 0, rand2 := 0, lastLost1 := none, lastLost2 := none }

/-- C4 counterexample: the reaper resolves agent1's move as `paper` —
the *current* strategy row — while the claim's "snapshotted strategy
configuration" (`always rock` on the match row) would give `rock`. -/
theorem processMatch_snapshot_counterexample :
    (processMatch c4Match c4Agent1 c4Agent2 c4Oracle).agent1Move = some Move.paper ∧
    (computeMove c4Match.agent1_strategy c4Agent1.strategy_state
        c4Oracle.rand1 c4Oracle.lastLost1).move = some Move.rock ∧
    (processMatch c4Match c4Agent1 c4Agent2 c4Oracle).agent1Move ≠
      (computeMove c4Match.agent1_strategy c4Agent1.strategy_state
        c4Oracle.rand1 c4Oracle.lastLost1).move := by
  refine ⟨?_, ?_, ?_⟩ <;> decide

/-- C4 witness: on the concrete stale pending match, agent1's lone
commit hash is discarded (the move comes from the executor) and only the
audit flags record who committed. -/
theorem processMatch_pending_fallback_witness :
    (processMatch c4Match c4Agent1 c4Agent2 c4Oracle).agent1Fallback = false ∧
    (processMatch c4Match c4Agent1 c4Agent2 c4Oracle).agent2Fallback = true ∧
    (processMatch c4Match c4Agent1 c4Agent2 c4Oracle).agent1Move = some Move.paper ∧
    (processMatch c4Match c4Agent1 c4Agent2 c4Oracle).agent2Move = some Move.scissors := by
  have h := (processMatch_pending_fallback c4Match c4Agent1 c4Agent2 c4Oracle rfl).1
  rw [h]
  refine ⟨?_, ?_, ?_, ?_⟩ <;> decide

/-! ## C2 — resolution is rejected on a complete match -/

/-- C2: invoking `resolve_match` on a match already `complete` raises
`already complete` and — the transaction rolling back — performs no state
change at all; and after any successful resolution the match is
`complete`, so a second invocation for the same match is a no-op:
resolution takes effect exactly once. -/
theorem resolve_match_already_complete (now : ℚ) (st : DbState)
    (p : ResolveArgs) (h : st.m.status = .complete) :
    resolve_match now st p = .error "Match is already complete or does not exist" ∧
    runResolve now st p = st ∧
    (∀ (now0 : ℚ) (st0 : DbState) (p0 : ResolveArgs) (st1 : DbState),
      resolve_match now0 st0 p0 = .ok st1 →
      resolve_match now st1 p = .error "Match is already complete or does not exist" ∧
      runResolve now st1 p = st1) := by
  have herr : ∀ s : DbState, s.m.status = .complete →
      resolve_match now s p = .error "Match is already complete or does not exist" := by
    intro s hs
    simp [resolve_match, hs]
  refine ⟨herr st h, runResolve_of_error _ _ _ _ (herr st h), ?_⟩
  intro now0 st0 p0 st1 hok
  have hc := resolve_match_ok_status now0 st0 p0 st1 hok
  exact ⟨herr st1 hc, runResolve_of_error _ _ _ _ (herr st1 hc)⟩

/-- Already-complete match of the C2 witness. -/
def c2St : DbState :=
  { m := { id := 9, agent1_id := 1, agent2_id := 2, wager_amount := 50,
           status := .complete, strategy_deadline := none, commit_deadline := 60,
           agent1_move_hash := none, agent2_move_hash := none,
           reveal_deadline := none, agent1_move := some "rock",
           agent1_salt := none, agent2_move := some "scissors",
           agent2_salt := none, agent1_used_fallback := true,
           agent2_used_fallback := true, agent1_strategy := .random,
           agent2_strategy := .random, winner_id := some 1,
           completed_at := some 90 },
    a1 := { id := 1, balance := 1050, wins := 1, losses := 0, draws := 0,
            strategy := .random, strategy_state := none },
    a2 := { id := 2, balance := 950, wins := 0, losses := 1, draws := 0,
            strategy := .random, strategy_state := none },
    txs := [] }

/-- Arguments of the C2 witness call. -/
def c2Args : ResolveArgs :=
  { agent1_move := "rock", agent2_move := "scissors",
    agent1_fallback := false, agent2_fallback := false,
    agent1_new_state := none, agent2_new_state := none }

/-- C2 witness: the guard applied to a concrete completed match. -/
theorem resolve_match_already_complete_witness :
    resolve_match 100 c2St c2Args = .error "Match is already complete or does not exist" ∧
    runResolve 100 c2St c2Args = c2St ∧
    (∀ (now0 : ℚ) (st0 : DbState) (p0 : ResolveArgs) (st1 : DbState),
      resolve_match now0 st0 p0 = .ok st1 →
      resolve_match 100 st1 c2Args = .error "Match is already complete or does not exist" ∧
      runResolve 100 st1 c2Args = st1) :=
  resolve_match_already_complete 100 c2St c2Args rfl

/-! ## C1 — resolution settles the match -/

/-- C1: with both final moves known, `resolve_match` determines the
winner by the standard cycle (equal moves draw), credits the winner
exactly twice the match wager (on a draw, credits each participant their
own wager back), bumps the winner's wins and the loser's losses (both
draws counters on a draw), and stamps the match `complete` with
`winner_id` set (`none` on a draw), leaving the loser's balance
untouched at resolution time. -/
theorem resolve_match_settles (now : ℚ) (st : DbState) (mv1 mv2 : Move)
    (fb1 fb2 : Bool) (ns1 ns2 : StratState)
    (hstat : st.m.status ≠ .complete)
    (hid1 : st.a1.id = st.m.agent1_id) (hid2 : st.a2.id = st.m.agent2_id)
    (hne : st.m.agent1_id ≠ st.m.agent2_id) :
    ∃ st', resolve_match now st
        { agent1_move := mv1.str, agent2_move := mv2.str,
          agent1_fallback := fb1, agent2_fallback := fb2,
          agent1_new_state := ns1, agent2_new_state := ns2 } = .ok st' ∧
      st'.m.status = .complete ∧
      st'.m.agent1_move = some mv1.str ∧
      st'.m.agent2_move = some mv2.str ∧
      (mv1 = mv2 →
        st'.a1.balance = st.a1.balance + st.m.wager_amount ∧
        st'.a2.balance = st.a2.balance + st.m.wager_amount ∧
        st'.a1.draws = st.a1.draws + 1 ∧ st'.a2.draws = st.a2.draws + 1 ∧
        st'.a1.wins = st.a1.wins ∧ st'.a2.wins = st.a2.wins ∧
        st'.a1.losses = st.a1.losses ∧ st'.a2.losses = st.a2.losses ∧
        st'.m.winner_id = none) ∧
      (beats mv1 mv2 = true →
        st'.a1.balance = st.a1.balance + st.m.wager_amount * 2 ∧
        st'.a2.balance = st.a2.balance ∧
        st'.a1.wins = st.a1.wins + 1 ∧ st'.a2.losses = st.a2.losses + 1 ∧
        st'.a1.draws = st.a1.draws ∧ st'.a2.draws = st.a2.draws ∧
        st'.m.winner_id = some st.m.agent1_id) ∧
      (beats mv2 mv1 = true →
        st'.a2.balance = st.a2.balance + st.m.wager_amount * 2 ∧
        st'.a1.balance = st.a1.balance ∧
        st'.a2.wins = st.a2.wins + 1 ∧ st'.a1.losses = st.a1.losses + 1 ∧
        st'.a2.draws = st.a2.draws ∧ st'.a1.draws = st.a1.draws ∧
        st'.m.winner_id = some st.m.agent2_id) := by
  have h21 : st.m.agent2_id ≠ st.m.agent1_id := Ne.symm hne
  cases mv1 <;> cases mv2 <;>
    simp [resolve_match, Move.str, parseMove, updAgents, beats, hstat,
      hid1, hid2, hne, h21]

/-- Challenger of the C1 witness, before posting: balance 1000. -/
def c1Agent1 : AgentRec :=
  { id := 1, balance := 1000, wins := 3, losses := 2, draws := 1,
    strategy := .always .rock, strategy_state := none }

/-- Accepter of the C1 witness, before accepting: balance 1000. -/
def c1Agent2 : AgentRec :=
  { id := 2, balance := 1000, wins := 0, losses := 0, draws := 0,
    strategy := .always .scissors, strategy_state := none }

/-- The C1 witness state at resolution time: agent1's wager of 50 was
escrowed by `escrow_wager` when the challenge was posted, agent2's by
`create_match` when it was accepted (`balance - wager_amount`), so both
sit at 950 with the match pending. -/
def c1St : DbState :=
  { m := { id := 11, agent1_id := 1, agent2_id := 2, wager_amount := 50,
           status := .pending, strategy_deadline := some 0,
           commit_deadline := 60, agent1_move_hash := none,
           agent2_move_hash := none, reveal_deadline := none,
           agent1_move := none, agent1_salt := none, agent2_move := none,
           agent2_salt := none, agent1_used_fallback := false,
           agent2_used_fallback := false, agent1_strategy := .always .rock,
           agent2_strategy := .always .scissors, winner_id := none,
           completed_at := none },
    a1 := (escrow_wager { ag := c1Agent1, txs := [] } 50).2.ag,
    a2 := { c1Agent2 with balance := c1Agent2.balance - 50 },
    txs := [] }

/-- C1 witness: wager 50, prior balances 1000 and 1000, moves rock vs
scissors — the balances end 1050 and 950, agent1 gains a win, agent2 a
loss, the match is `complete` with `winner_id` agent1. -/
theorem resolve_match_settles_witness :
    ∃ st', resolve_match 100 c1St
        { agent1_move := Move.rock.str, agent2_move := Move.scissors.str,
          agent1_fallback := false, agent2_fallback := false,
          agent1_new_state := none, agent2_new_state := none } = .ok st' ∧
      st'.m.status = .complete ∧
      st'.m.winner_id = some 1 ∧
      st'.a1.balance = 1050 ∧
      st'.a2.balance = 950 ∧
      st'.a1.wins = c1St.a1.wins + 1 ∧
      st'.a2.losses = c1St.a2.losses + 1 := by
  obtain ⟨st', hok, hcomplete, _, _, _, hwin, _⟩ :=
    resolve_match_settles 100 c1St .rock .scissors false false none none
      (by decide) rfl rfl (by decide)
  obtain ⟨hb1, hb2, hw, hl, _, _, hwid⟩ := hwin (by decide)
  refine ⟨st', hok, hcomplete, ?_, ?_, ?_, hw, hl⟩
  · rw [hwid]; rfl
  · rw [hb1]; decide
  · rw [hb2]; decide

/-! ## C3 — balance mutations versus transaction rows -/

/-- C3 counterexample: the escrow at challenge post (`escrow_wager`)
mutates the balance — 1000 becomes 950 — and appends *no* transaction
row (the log stays empty), so not every ledger balance mutation carries
a matching `Transaction` row. -/
theorem escrow_without_transaction_counterexample :
    (escrow_wager
      { ag := { id := 1, balance := 1000, wins := 0, losses := 0, draws := 0,
                strategy := .random, strategy_state := none },
        txs := [] } 50).1 = true ∧
    (escrow_wager
      { ag := { id := 1, balance := 1000, wins := 0, losses := 0, draws := 0,
                strategy := .random, strategy_state := none },
        txs := [] } 50).2.ag.balance = 950 ∧
    (escrow_wager
      { ag := { id := 1, balance := 1000, wins := 0, losses := 0, draws := 0,
                strategy := .random, strategy_state := none },
        txs := [] } 50).2.txs = [] := by
  refine ⟨?_, ?_, ?_⟩ <;> decide

/-- C3 amended: escrow debits (`escrow_wager` at challenge post, and the
same direct debit inside `create_match` at accept) and `refund_wager`
credits change balances with *no* transaction row; only the
`cancel_challenge` refund and the `resolve_match` settlements append
transaction rows in the same atomic unit, and those rows' amounts sum
exactly to the balance delta they record. -/
theorem ledger_transaction_pairing :
    (∀ (st : LedgerState) (amt : Int), (escrow_wager st amt).1 = true →
      (escrow_wager st amt).2.ag.balance = st.ag.balance - amt ∧
      (escrow_wager st amt).2.txs = st.txs) ∧
    (∀ (now : ℚ) (st : CreateMatchState) (aid mid : Nat) (s c : ℚ)
        (st' : CreateMatchState) (m : MatchRec),
      create_match now st aid mid s c = .ok (st', m) →
      st.accepter.id = aid →
      st'.accepter.balance = st.accepter.balance - st.ch.wager_amount ∧
      st'.challenger.balance = st.challenger.balance ∧
      st'.txs = st.txs) ∧
    (∀ (st : LedgerState) (amt : Int),
      (refund_wager st amt).ag.balance = st.ag.balance + amt ∧
      (refund_wager st amt).txs = st.txs) ∧
    (∀ (st : CancelState) (aid : Nat),
      st.ch.challenger_id = aid → st.ch.status = .open_ → st.ag.id = aid →
      (cancel_challenge st aid).2.ag.balance = st.ag.balance + st.ch.wager_amount ∧
      (cancel_challenge st aid).2.txs = st.txs ++
        [{ match_id := none, from_agent_id := none, to_agent_id := aid,
           amount := st.ch.wager_amount,
           note := "challenge cancelled — wager returned" }]) ∧
    (∀ (now : ℚ) (st : DbState) (p : ResolveArgs) (st' : DbState),
      resolve_match now st p = .ok st' →
      st.a1.id = st.m.agent1_id → st.a2.id = st.m.agent2_id →
      st.m.agent1_id ≠ st.m.agent2_id →
      ∃ appended, st'.txs = st.txs ++ appended ∧
        (appended.map Txn.amount).sum =
          st'.a1.balance + st'.a2.balance - (st.a1.balance + st.a2.balance)) := by
  refine ⟨?_, ?_, ?_, ?_, ?_⟩
  · intro st amt h
    by_cases hlt : st.ag.balance < amt
    · simp [escrow_wager, hlt] at h
    · simp [escrow_wager, hlt]
  · intro now st aid mid s c st' m hok hid
    simp only [create_match] at hok
    split_ifs at hok with h1 h2 h3
    simp only [Except.ok.injEq, Prod.mk.injEq] at hok
    obtain ⟨hst, _⟩ := hok
    subst hst
    simp [hid]
  · intro st amt
    simp [refund_wager]
  · intro st aid h1 h2 h3
    simp [cancel_challenge, h1, h2, h3]
  · intro now st p st' hok hid1 hid2 hne
    have h21 : st.m.agent2_id ≠ st.m.agent1_id := Ne.symm hne
    simp only [resolve_match] at hok
    split_ifs at hok with hc hv1 hv2 hdraw hwinner
    · -- draw branch
      simp only [Except.ok.injEq] at hok
      subst hok
      refine ⟨_, rfl, ?_⟩
      simp [updAgents, hid1, hid2, hne, h21]
      ring
    · -- agent1 wins
      simp only [Except.ok.injEq] at hok
      subst hok
      refine ⟨_, rfl, ?_⟩
      simp [updAgents, hid1, hid2, hne, h21]
    · -- agent2 wins
      simp only [Except.ok.injEq] at hok
      subst hok
      refine ⟨_, rfl, ?_⟩
      simp [updAgents, hid1, hid2, hne, h21]

/-- Agent row of the C3 witness instances. -/
def c3Agent : AgentRec :=
  { id := 1, balance := 1000, wins := 0, losses := 0, draws := 0,
    strategy := .always .rock, strategy_state := none }

/-- Ledger slice of the C3 escrow/refund witness instances. -/
def c3Ledger : LedgerState := { ag := c3Agent, txs := [] }

/-- Open challenge of the C3 cancellation witness instance. -/
def c3Cancel : CancelState :=
  { ch := { id := 5, challenger_id := 1, wager_amount := 50, status := .open_ },
    ag := c3Agent, txs := [] }

/-- Open challenge being accepted in the C3 `create_match` witness
instance: challenger agent 1, accepter agent 2, wager 50. -/
def c3CreateSt : CreateMatchState :=
  { ch := { id := 6, challenger_id := 1, wager_amount := 50, status := .open_ },
    challenger := c3Agent,
    accepter := { c3Agent with id := 2 },
    txs := [] }

/-- Result of the C3 `create_match` witness call (the fallback arm is
never taken: the call succeeds). -/
def c3Created : CreateMatchState × MatchRec :=
  match create_match 100 c3CreateSt 2 21 60 60 with
  | .ok r => r
  | .error _ => (c3CreateSt, c4Match)

/-- Pending match of the C3 resolution witness instance. -/
def c3ResolveSt : DbState :=
  { m := { id := 13, agent1_id := 1, agent2_id := 2, wager_amount := 50,
           status := .pending, strategy_deadline := some 0,
           commit_deadline := 60, agent1_move_hash := none,
           agent2_move_hash := none, reveal_deadline := none,
           agent1_move := none, agent1_salt := none, agent2_move := none,
           agent2_salt := none, agent1_used_fallback := false,
           agent2_used_fallback := false, agent1_strategy := .always .rock,
           agent2_strategy := .always .scissors, winner_id := none,
           completed_at := none },
    a1 := { id := 1, balance := 950, wins := 0, losses := 0, draws := 0,
            strategy := .always .rock, strategy_state := none },
    a2 := { id := 2, balance := 950, wins := 0, losses := 0, draws := 0,
            strategy := .always .scissors, strategy_state := none },
    txs := [] }

/-- Resolved state of the C3 resolution witness instance. -/
def c3Resolved : DbState := runResolve 100 c3ResolveSt c2Args

/-- C3 witness: each conjunct of the amended theorem applied at a
concrete input — the challenge-post escrow and the accept escrow inside
`create_match` debit 50 with the log untouched, `refund_wager` credits
with the log untouched, and the cancellation refund and the resolution
settlement append their matching rows. -/
theorem ledger_transaction_pairing_witness :
    ((escrow_wager c3Ledger 50).2.ag.balance = c3Ledger.ag.balance - 50 ∧
      (escrow_wager c3Ledger 50).2.txs = c3Ledger.txs) ∧
    (c3Created.1.accepter.balance =
        c3CreateSt.accepter.balance - c3CreateSt.ch.wager_amount ∧
      c3Created.1.challenger.balance = c3CreateSt.challenger.balance ∧
      c3Created.1.txs = c3CreateSt.txs) ∧
    ((refund_wager c3Ledger 50).ag.balance = c3Ledger.ag.balance + 50 ∧
      (refund_wager c3Ledger 50).txs = c3Ledger.txs) ∧
    ((cancel_challenge c3Cancel 1).2.ag.balance =
        c3Cancel.ag.balance + c3Cancel.ch.wager_amount ∧
      (cancel_challenge c3Cancel 1).2.txs = c3Cancel.txs ++
        [{ match_id := none, from_agent_id := none, to_agent_id := 1,
           amount := c3Cancel.ch.wager_amount,
           note := "challenge cancelled — wager returned" }]) ∧
    (∃ appended, c3Resolved.txs = c3ResolveSt.txs ++ appended ∧
      (appended.map Txn.amount).sum =
        c3Resolved.a1.balance + c3Resolved.a2.balance -
          (c3ResolveSt.a1.balance + c3ResolveSt.a2.balance)) := by
  obtain ⟨he, hc, hr, hx, hres⟩ := ledger_transaction_pairing
  refine ⟨he c3Ledger 50 (by decide), ?_, hr c3Ledger 50,
    hx c3Cancel 1 rfl rfl rfl, ?_⟩
  · exact hc 100 c3CreateSt 2 21 60 60 c3Created.1 c3Created.2 rfl rfl
  · exact hres 100 c3ResolveSt c2Args c3Resolved rfl rfl rfl (by decide)

/-! ## C10 — fallback audit flags on a pending timeout -/

/-- C10: when the reaper drives a pending timed-out match through
`resolve_match`, the match row's `used_fallback` flag of each agent
records only whether that agent ever submitted a commit hash — an agent
who committed is stamped `used_fallback = false` even though their final
move was computed from their strategy. -/
theorem reaper_fallback_flags (now : ℚ) (st : DbState) (o : ReaperOracle)
    (hp : st.m.status = .pending) (mv1 mv2 : Move)
    (h1 : (computeMove st.a1.strategy st.a1.strategy_state o.rand1 o.lastLost1).move
      = some mv1)
    (h2 : (computeMove st.a2.strategy st.a2.strategy_state o.rand2 o.lastLost2).move
      = some mv2) :
    ∃ st', reapResolve now st o = .ok st' ∧
      st'.m.agent1_used_fallback = st.m.agent1_move_hash.isNone ∧
      st'.m.agent2_used_fallback = st.m.agent2_move_hash.isNone := by
  cases mv1 <;> cases mv2 <;>
    simp [reapResolve, processMatch, hp, h1, h2, resolve_match, Move.str,
      parseMove, updAgents]

/-- State of the C10 witness: a pending match past its deadline in which
agent1 committed a hash and agent2 did not. -/
def c10St : DbState :=
  { m := { id := 12, agent1_id := 1, agent2_id := 2, wager_amount := 50,
           status := .pending, strategy_deadline := some 0,
           commit_deadline := 60, agent1_move_hash := some "deadbeef",
           agent2_move_hash := none, reveal_deadline := none,
           agent1_move := none, agent1_salt := none, agent2_move := none,
           agent2_salt := none, agent1_used_fallback := false,
           agent2_used_fallback := false, agent1_strategy := .always .rock,
           agent2_strategy := .always .scissors, winner_id := none,
           completed_at := none },
    a1 := { id := 1, balance := 950, wins := 0, losses := 0, draws := 0,
            strategy := .always .rock, strategy_state := none },
    a2 := { id := 2, balance := 950, wins := 0, losses := 0, draws := 0,
            strategy := .always .scissors, strategy_state := none },
    txs := [] }

/-- Oracle of the C10 witness (`always` consumes no randomness). -/
def c10Oracle : ReaperOracle :=
  { rand1 := 0, rand2 := 0, lastLost1 := none, lastLost2 := none }

/-- C10 witness: agent1 committed, agent2 did not; after the reap,
agent1 is stamped `used_fallback = false` and agent2 `true`. -/
theorem reaper_fallback_flags_witness :
    (∃ st', reapResolve 100 c10St c10Oracle = .ok st' ∧
      st'.m.agent1_used_fallback = c10St.m.agent1_move_hash.isNone ∧
      st'.m.agent2_used_fallback = c10St.m.agent2_move_hash.isNone) ∧
    c10St.m.agent1_move_hash.isNone = false ∧
    c10St.m.agent2_move_hash.isNone = true :=
  ⟨reaper_fallback_flags 100 c10St c10Oracle rfl .rock .scissors rfl rfl,
    rfl, rfl⟩

/-! ## C5 — reveal guard conditions -/

/-- Inversion of a successful `submit_reveal`: every guard must have
passed. -/
theorem submit_reveal_ok_inv (now : ℚ) (st : DbState) (p : RevealArgs)
    (st' : DbState) (hok : submit_reveal now st p = .ok st') :
    st.m.status = .waiting_reveals ∧
    sqlAfter now st.m.reveal_deadline = false ∧
    (p.agent_id = st.m.agent1_id ∨ p.agent_id = st.m.agent2_id) ∧
    (p.agent_id = st.m.agent1_id →
      st.m.agent1_move = none ∧
      sqlNeq (sha256hex (p.move ++ p.salt)) st.m.agent1_move_hash = false) ∧
    (p.agent_id ≠ st.m.agent1_id →
      st.m.agent2_move = none ∧
      sqlNeq (sha256hex (p.move ++ p.salt)) st.m.agent2_move_hash = false) := by
  simp only [submit_reveal] at hok
  split_ifs at hok with hs hdl hpart hv hag hrev hhash hrev2 hhash2
  case _ =>
    refine ⟨not_not.mp hs, by simpa using hdl, Or.inl hag, ?_, ?_⟩
    · intro _
      exact ⟨Option.not_isSome_iff_eq_none.mp (by simpa using hrev),
        by simpa using hhash⟩
    · intro hcon
      exact absurd hag hcon
  case _ =>
    have hag2 : p.agent_id = st.m.agent2_id := by
      rcases not_and_or.mp hpart with hx | hx
      · exact absurd (not_not.mp hx) hag
      · exact not_not.mp hx
    refine ⟨not_not.mp hs, by simpa using hdl, Or.inr hag2, ?_, ?_⟩
    · intro hcon
      exact absurd hcon hag
    · intro _
      exact ⟨Option.not_isSome_iff_eq_none.mp (by simpa using hrev2),
        by simpa using hhash2⟩

/-- C5: a reveal is rejected — leaving the match row, both balances and
the transaction ledger unchanged (the transaction rolls back whole) —
whenever the match is not in `waiting_reveals`, the reveal deadline has
passed, the caller is not a participant, that participant already
revealed, or `SHA-256(move || salt)` differs from that participant's
stored commit hash; a hash mismatch is an error, never a silent
fallback. -/
theorem submit_reveal_guards (now : ℚ) (st : DbState) (p : RevealArgs)
    (hne : st.m.agent1_id ≠ st.m.agent2_id)
    (h :
      st.m.status ≠ .waiting_reveals ∨
      sqlAfter now st.m.reveal_deadline = true ∨
      (p.agent_id ≠ st.m.agent1_id ∧ p.agent_id ≠ st.m.agent2_id) ∨
      (p.agent_id = st.m.agent1_id ∧ st.m.agent1_move.isSome = true) ∨
      (p.agent_id = st.m.agent2_id ∧ st.m.agent2_move.isSome = true) ∨
      (p.agent_id = st.m.agent1_id ∧
        sqlNeq (sha256hex (p.move ++ p.salt)) st.m.agent1_move_hash = true) ∨
      (p.agent_id = st.m.agent2_id ∧
        sqlNeq (sha256hex (p.move ++ p.salt)) st.m.agent2_move_hash = true)) :
    (∃ e, submit_reveal now st p = .error e) ∧ runReveal now st p = st := by
  have herr : ∃ e, submit_reveal now st p = .error e := by
    cases hres : submit_reveal now st p with
    | error e => exact ⟨e, rfl⟩
    | ok st' =>
      exfalso
      obtain ⟨i1, i2, i3, i4, i5⟩ := submit_reveal_ok_inv now st p st' hres
      rcases h with h | h | h | h | h | h | h
      · exact h i1
      · rw [i2] at h
        exact Bool.noConfusion h
      · rcases i3 with hx | hx
        · exact h.1 hx
        · exact h.2 hx
      · obtain ⟨hnone, _⟩ := i4 h.1
        rw [hnone] at h
        exact Bool.noConfusion h.2
      · have hno1 : p.agent_id ≠ st.m.agent1_id := by
          rw [h.1]
          exact Ne.symm hne
        obtain ⟨hnone, _⟩ := i5 hno1
        rw [hnone] at h
        exact Bool.noConfusion h.2
      · obtain ⟨_, hfalse⟩ := i4 h.1
        rw [hfalse] at h
        exact Bool.noConfusion h.2
      · have hno1 : p.agent_id ≠ st.m.agent1_id := by
          rw [h.1]
          exact Ne.symm hne
        obtain ⟨_, hfalse⟩ := i5 hno1
        rw [hfalse] at h
        exact Bool.noConfusion h.2
  obtain ⟨e, he⟩ := herr
  exact ⟨⟨e, he⟩, runReveal_of_error _ _ _ _ he⟩

/-- C5 witness — the spec's concrete scenario: the agent reveals `paper`
with a salt that does not hash to their stored `rock` commit; the reveal
is rejected and the whole state (match row, balances, ledger) is
unchanged, still `waiting_reveals`. -/
theorem submit_reveal_guards_witness :
    ((∃ e, submit_reveal 100 c6St
        { agent_id := 1, move := "paper", salt := c6Salt } = .error e) ∧
      runReveal 100 c6St { agent_id := 1, move := "paper", salt := c6Salt } = c6St) ∧
    c6St.m.status = .waiting_reveals :=
  ⟨submit_reveal_guards 100 c6St { agent_id := 1, move := "paper", salt := c6Salt }
      (by decide)
      (Or.inr (Or.inr (Or.inr (Or.inr (Or.inr (Or.inl ⟨rfl, by decide⟩)))))),
    rfl⟩

end RockPaperClaw
